/-
  Verification of the BlueGuard-AI data ingestion, validation and
  result-normalization pipeline.

  Shallow embedding of the TypeScript sources:
    - src/frontend/src/api/checkZone.ts   (isValidCoordinate, generateMockViolation,
                                           formatAPIResponse, formatErrorResponse, checkZone)
    - src/unnamed/part_001                (API_CONFIG, ApiCache, retryRequest,
                                           validateVesselData, fetchCSV validation step,
                                           and the alternate single-coordinate checkZone variant)
    - src/unnamed/part_000                (convertToCSV, export guard)
    - src/frontend/src/pages/ZoneViolation.tsx  (handleZoneCheck CSV parsing,
                                           mapApiResponseToLocalFormat, handleExport guard)
    - src/frontend/src/pages/PredictionPage.tsx (processVesselData, determineBehavior)

  Numbers are modelled as rationals (ℚ); JavaScript values that may be strings,
  null, undefined or NaN are modelled by the JSVal type below, with the Number()
  coercion modelled on its decimal fragment (whitespace trimming, optional sign,
  digits with an optional fraction part; the empty string coerces to 0, anything
  else non-numeric to NaN).  Math.random() draws are modelled by explicit oracle
  parameters; Date.now() / new Date() by explicit time parameters.  String
  operations (trim, split, toLowerCase, replace) are modelled charwise so that
  every definition evaluates by kernel reduction.
-/
import Mathlib

/-- Drop whitespace from both ends of a character list (JS String.trim). -/
def trimChars (cs : List Char) : List Char :=
  ((cs.dropWhile Char.isWhitespace).reverse.dropWhile Char.isWhitespace).reverse

/-- JS `s.trim()`. -/
def jsTrim (s : String) : String := String.mk (trimChars s.data)

/-- Split a character list at every occurrence of `c` (JS String.split with a
one-character separator; the empty string yields one empty group). -/
def splitCharList (c : Char) : List Char → List (List Char)
  | [] => [[]]
  | x :: rest =>
    match splitCharList c rest with
    | [] => [[]]
    | g :: gs => if x = c then [] :: g :: gs else (x :: g) :: gs

/-- JS `s.split(c)` for a one-character separator. -/
def jsSplit (s : String) (c : Char) : List String :=
  (splitCharList c s.data).map String.mk

/-- JS `s.toLowerCase()` (ASCII). -/
def lowerStr (s : String) : String := String.mk (s.data.map Char.toLower)

/-- JS `s.toUpperCase()` (ASCII). -/
def upperStr (s : String) : String := String.mk (s.data.map Char.toUpper)

/-- Double every double-quote character (JS `.replace(/"/g, '""')`). -/
def escQuotes (cs : List Char) : List Char :=
  cs.foldr (fun c acc => if c = '"' then '"' :: '"' :: acc else c :: acc) []

/-- part_000 `convertToCSV` cell escaping: double internal quotes and wrap the
whole cell in quotes. -/
def csvEscape (s : String) : String := "\"" ++ String.mk (escQuotes s.data) ++ "\""

/-- JS `array.join(sep)`. -/
def joinWith (sep : String) : List String → String
  | [] => ""
  | [x] => x
  | x :: y :: rest => x ++ sep ++ joinWith sep (y :: rest)

/-- A JavaScript value as it occurs in the loosely-typed rows handled by the
pipeline: a (non-NaN) number, the NaN number, a string, null, or undefined. -/
inductive JSVal where
  | num (q : ℚ)
  | nan
  | str (s : String)
  | nullV
  | undef
deriving Repr, DecidableEq

/-- Fold a digit list into a natural number (decimal). -/
def digitsToNat (cs : List Char) : Nat :=
  cs.foldl (fun acc c => acc * 10 + (c.toNat - 48)) 0

/-- Parse an unsigned decimal literal `digits [. digits]` with at least one
digit overall, as accepted by the JS `Number()` coercion. -/
def parseUnsigned (cs : List Char) : Option ℚ :=
  let intPart := cs.takeWhile (fun c => c.isDigit)
  let rest := cs.dropWhile (fun c => c.isDigit)
  match rest with
  | [] => if intPart.isEmpty then none else some (mkRat (Int.ofNat (digitsToNat intPart)) 1)
  | c :: frac =>
    if c = '.' ∧ frac.all (fun d => d.isDigit) ∧ (¬ intPart.isEmpty ∨ ¬ frac.isEmpty) then
      some (mkRat (Int.ofNat (digitsToNat intPart * 10 ^ frac.length + digitsToNat frac))
        (10 ^ frac.length))
    else none

/-- The decimal fragment of the JS `Number(string)` coercion: trim whitespace,
map the empty string to 0, accept an optional sign followed by a decimal
literal, and yield `none` (NaN) otherwise.  (Hex, exponent and Infinity forms
do not occur in the inputs exercised by this development.) -/
def jsNumber (s : String) : Option ℚ :=
  let t := jsTrim s
  if t = "" then some 0
  else
    match t.data with
    | '-' :: rest => (parseUnsigned rest).map (fun q => -q)
    | '+' :: rest => parseUnsigned rest
    | cs => parseUnsigned cs

/-- `Number(v)` for a JSVal: numbers pass through, NaN stays NaN, strings are
parsed, `null` coerces to 0 and `undefined` to NaN. -/
def jsToNumber : JSVal → Option ℚ
  | .num q => some q
  | .nan => none
  | .str s => jsNumber s
  | .nullV => some 0
  | .undef => none

/-- `typeof v === 'number'` (true for NaN as well). -/
def jsTypeofNumber : JSVal → Bool
  | .num _ => true
  | .nan => true
  | _ => false

/-- `v >= q` for a number-typed JSVal (false for NaN, as in JS). -/
def jsNumGE (v : JSVal) (q : ℚ) : Bool :=
  match v with
  | .num x => decide (q ≤ x)
  | _ => false

/-- `v <= q` for a number-typed JSVal (false for NaN, as in JS). -/
def jsNumLE (v : JSVal) (q : ℚ) : Bool :=
  match v with
  | .num x => decide (x ≤ q)
  | _ => false

/-- `s || d` for a JS string: the empty string is falsy. -/
def strOr (s d : String) : String := if s = "" then d else s

/-- `v || d` for an optional JS string (absent or empty falls back to `d`). -/
def jsOrStr (v : Option String) (d : String) : String :=
  match v with
  | some s => if s = "" then d else s
  | none => d

/-- checkZone.ts `isValidCoordinate(lat, lng)`: both values coerce to non-NaN
numbers and lie in the latitude/longitude ranges. -/
def isValidCoordinate (lat lng : JSVal) : Bool :=
  match jsToNumber lat, jsToNumber lng with
  | some a, some b => decide (-90 ≤ a ∧ a ≤ 90 ∧ -180 ≤ b ∧ b ≤ 180)
  | _, _ => false

/-! ## checkZone.ts: vessel data, backend response, orchestrator -/

/-- A vessel row as submitted to `checkZone` (checkZone.ts `VesselData`);
only the fields the orchestrator reads are modelled.  An absent `vessel_id`
is `none`. -/
structure VesselDataM where
  vessel_id : Option String
  latitude : JSVal
  longitude : JSVal
deriving Repr, DecidableEq

/-- One entry of the remote service's `results` array, with every field the
formatter defaults treated as optional (absent or falsy). -/
structure RawViolation where
  vessel_id : String
  zone_type : Option String
  timestamp : Option String
  location : Option (JSVal × JSVal)
  severity : Option String
  details : Option String
deriving Repr, DecidableEq

/-- The raw backend response consumed by `formatAPIResponse`; `results?` is
`none` when the response has no (or a falsy) `results` field. -/
structure RawResp where
  results? : Option (List RawViolation)
  violations : Option Nat
  mpa_violations : Option Nat
  eez_violations : Option Nat
  processing_time : Option String
deriving Repr, DecidableEq

/-- checkZone.ts `ZoneViolationResult` after formatting (all defaults applied). -/
structure ZoneViolationResultM where
  vessel_id : String
  zone_type : String
  timestamp : String
  location : JSVal × JSVal
  severity : String
  details : String
deriving Repr, DecidableEq

/-- checkZone.ts `ZoneCheckResponse`. -/
structure ZoneCheckResponseM where
  success : Bool
  total_vessels : Nat
  violations : Nat
  mpa_violations : Nat
  eez_violations : Nat
  processing_time : String
  results : List ZoneViolationResultM
  error : Option String
deriving Repr, DecidableEq

/-- checkZone.ts `generateMockViolation(vessel)`.  The three Math.random()
draws consumed by one call are the components of `r` (the second severity
draw is only reached when the first is ≤ 0.7, matching short-circuiting). -/
def generateMockViolation (v : VesselDataM) (now : String) (r : ℚ × ℚ × ℚ) :
    ZoneViolationResultM :=
  let zoneType := if r.1 > mkRat 5 10 then "mpa" else "eez"
  let severity := if r.2.1 > mkRat 7 10 then "high"
                  else if r.2.2 > mkRat 5 10 then "medium" else "low"
  { vessel_id := jsOrStr v.vessel_id "UNKNOWN"
    zone_type := zoneType
    timestamp := now
    location := (v.longitude, v.latitude)
    severity := severity
    details := "Mock " ++ upperStr zoneType ++ " violation" }

/-- checkZone.ts `formatAPIResponse(result, vessels)`: throws (models as
`.error`) when the response has no `results` field, otherwise copies the
backend tallies (with `|| 0` defaults) and maps each raw result entry,
filling per-field defaults. -/
def formatAPIResponse (raw : RawResp) (vessels : List VesselDataM) (now : String) :
    Except String ZoneCheckResponseM :=
  match raw.results? with
  | none => .error "Invalid API response format"
  | some rs => .ok
      { success := true
        total_vessels := vessels.length
        violations := raw.violations.getD 0
        mpa_violations := raw.mpa_violations.getD 0
        eez_violations := raw.eez_violations.getD 0
        processing_time := jsOrStr raw.processing_time "0.00s"
        results := rs.map (fun v =>
          { vessel_id := v.vessel_id
            zone_type := jsOrStr v.zone_type "mpa"
            timestamp := jsOrStr v.timestamp now
            location := v.location.getD (JSVal.num 0, JSVal.num 0)
            severity := jsOrStr v.severity "low"
            details := jsOrStr v.details "" })
        error := none }

/-- checkZone.ts `formatErrorResponse(vessels, error)`: a mock result per
vessel (Math.random() draws come from the oracle `o`, indexed by vessel
position), `violations` set to the number of vessels, `success := false`
and the error message recorded. -/
def formatErrorResponse (vessels : List VesselDataM) (msg : String) (now : String)
    (o : Nat → ℚ × ℚ × ℚ) : ZoneCheckResponseM :=
  let mockResults := vessels.enum.map (fun iv => generateMockViolation iv.2 now (o iv.1))
  { success := false
    total_vessels := vessels.length
    violations := mockResults.length
    mpa_violations := (mockResults.filter
      (fun r => r.zone_type == "mpa" && r.severity == "high")).length
    eez_violations := (mockResults.filter
      (fun r => r.zone_type == "eez" && r.severity == "high")).length
    processing_time := "0.00s"
    results := mockResults
    error := some msg }

/-- Index of the first vessel whose coordinates fail `isValidCoordinate`
(checkZone.ts throws at the first such index while building the request). -/
def findInvalidIdx (vessels : List VesselDataM) : Option Nat :=
  vessels.findIdx? (fun v => !(isValidCoordinate v.latitude v.longitude))

/-- checkZone.ts `checkZone(vessels)`.  The network call is the opaque
parameter `api` (`.error m` models a rejected promise whose message is `m`);
every thrown error is caught and turned into `formatErrorResponse`. -/
def checkZone (vessels : List VesselDataM) (api : Except String RawResp)
    (now : String) (o : Nat → ℚ × ℚ × ℚ) : ZoneCheckResponseM :=
  if vessels.length = 0 then
    formatErrorResponse vessels "No vessel data to check" now o
  else
    match findInvalidIdx vessels with
    | some i =>
        formatErrorResponse vessels
          ("Invalid coordinates in vessel data at index " ++ toString i) now o
    | none =>
        match api with
        | .error m => formatErrorResponse vessels m now o
        | .ok raw =>
            match formatAPIResponse raw vessels now with
            | .error m => formatErrorResponse vessels m now o
            | .ok resp => resp

/-! ## ZoneViolation.tsx: mapping the API response to the local table model -/

/-- ZoneViolation.tsx `LocalViolationDetail` (the row shape rendered and
exported by the page). -/
structure LocalViolationDetail where
  vessel_id : String
  timestamp : String
  latitude : JSVal
  longitude : JSVal
  behavior : String
  in_mpa : Bool
  in_eez : Bool
  in_port : Bool
  illegal_fishing : Bool
  risk_level : String
deriving Repr, DecidableEq

/-- ZoneViolation.tsx `LocalZoneResults`. -/
structure LocalZoneResults where
  total_vessels : Nat
  violations : Nat
  mpa_violations : Nat
  eez_violations : Nat
  results : List LocalViolationDetail
deriving Repr, DecidableEq

/-- ZoneViolation.tsx `mapApiResponseToLocalFormat`: tallies are copied
verbatim; `illegal_fishing` is derived as `severity === 'high'` and
`latitude`/`longitude` are read from `location[0]`/`location[1]`. -/
def mapApiResponseToLocalFormat (resp : ZoneCheckResponseM) : LocalZoneResults :=
  { total_vessels := resp.total_vessels
    violations := resp.violations
    mpa_violations := resp.mpa_violations
    eez_violations := resp.eez_violations
    results := resp.results.map (fun d =>
      { vessel_id := d.vessel_id
        timestamp := d.timestamp
        latitude := d.location.1
        longitude := d.location.2
        behavior := strOr d.details "unknown"
        in_mpa := d.zone_type == "mpa"
        in_eez := d.zone_type == "eez"
        in_port := false
        risk_level := d.severity
        illegal_fishing := d.severity == "high" }) }

/-! ## part_001: resilient request layer (retryRequest), cache, fetch validation -/

/-- The error a wrapped call can throw: `isApiError` models
`error instanceof ApiError`, `status` the (optional) HTTP status. -/
structure ReqError where
  isApiError : Bool
  status : Option Nat
deriving Repr, DecidableEq

/-- part_001 `error.status === 400 || error.status === 401 || error.status === 403`. -/
def noRetryStatus (e : ReqError) : Bool :=
  e.status == some 400 || e.status == some 401 || e.status == some 403

/-- Execution trace of `retryRequest`: the final outcome, the number of times
the underlying call `fn` was invoked, and the backoff delays (ms) slept before
each retry, in order. -/
structure RetryTrace (α : Type) where
  result : Except ReqError α
  attempts : Nat
  delays : List Nat
deriving Repr

/-- part_001 `retryRequest(fn, retries = MAX_RETRIES, delay = INITIAL_RETRY_DELAY)`.
`fn k` is the outcome of the (k+1)-th invocation of the underlying call.
Non-`ApiError` failures and statuses 400/401/403 are rethrown immediately;
otherwise, after `delay` ms, the call is retried with `retries - 1` and
`min(delay * 2, MAX_RETRY_DELAY = 5000)`, until `retries` reaches 0. -/
def retryRequest {α : Type} (fn : Nat → Except ReqError α) (k retries delay : Nat) :
    RetryTrace α :=
  match fn k with
  | .ok a => ⟨.ok a, 1, []⟩
  | .error e =>
    if !e.isApiError then ⟨.error e, 1, []⟩
    else if noRetryStatus e then ⟨.error e, 1, []⟩
    else
      match retries with
      | 0 => ⟨.error e, 1, []⟩
      | r + 1 =>
        let t := retryRequest fn (k + 1) r (min (delay * 2) 5000)
        ⟨t.result, t.attempts + 1, delay :: t.delays⟩

/-- part_001 `validateVesselData` applied to one row: the coordinates must
already be JS numbers (`typeof === 'number'`) and lie in range. -/
def validateVesselRow (v : VesselDataM) : Bool :=
  (jsTypeofNumber v.latitude && jsTypeofNumber v.longitude) &&
    jsNumGE v.latitude (-90) && jsNumLE v.latitude 90 &&
    jsNumGE v.longitude (-180) && jsNumLE v.longitude 180

/-- part_001 `validateVesselData(data)`: every row passes `validateVesselRow`
(the `Array.isArray` check always holds in this model). -/
def validateVesselData (data : List VesselDataM) : Bool :=
  data.all validateVesselRow

/-- The validation step of part_001 `fetchCSV`: if the fetched `csv_data`
fails `validateVesselData`, the whole fetch throws the
`INVALID_DATA_FORMAT` ApiError; otherwise the rows are returned. -/
def fetchCSVValidate (data : List VesselDataM) : Except String (List VesselDataM) :=
  if validateVesselData data then .ok data else .error "INVALID_DATA_FORMAT"

/-- JS object / Map assignment on an association list: replace the value at
the first occurrence of the key, or append a new binding. -/
def upsert {β : Type} : List (String × β) → String → β → List (String × β)
  | [], k, v => [(k, v)]
  | (k1, v1) :: rest, k, v =>
    if k1 = k then (k, v) :: rest else (k1, v1) :: upsert rest k v

/-- part_001 `ApiCache.set(key, data, ttl)` at current time `now`: stores
`(data, now + ttl)` — the expiry instant is the write time plus the TTL. -/
def cacheSet {α : Type} (c : List (String × α × Nat)) (key : String) (data : α)
    (now ttl : Nat) : List (String × α × Nat) :=
  upsert c key (data, now + ttl)

/-- `Map.delete(key)` on the association-list model. -/
def cacheDelete {α : Type} (c : List (String × α × Nat)) (key : String) :
    List (String × α × Nat) :=
  c.filter (fun e => e.1 != key)

/-- part_001 `ApiCache.get(key)` at current time `now`: a missing key is a
miss; a key whose stored expiry instant is strictly in the past is a miss and
the entry is deleted; otherwise the stored value is returned.  The result is
the returned value together with the cache state after the call. -/
def cacheGet {α : Type} (c : List (String × α × Nat)) (key : String) (now : Nat) :
    Option α × List (String × α × Nat) :=
  match List.lookup key c with
  | none => (none, c)
  | some (d, exp) => if exp < now then (none, cacheDelete c key) else (some d, c)

/-! ## part_001: the alternate single-coordinate checkZone variant -/

/-- `String(n).padStart(3, '0')`. -/
def pad3 (n : Nat) : String :=
  let s := toString n
  if s.length < 3 then String.mk (List.replicate (3 - s.length) '0') ++ s else s

/-- A vessel row as consumed by the part_001 `checkZone` variant. -/
structure VesselP1 where
  vessel_id : Option String
  latitude : JSVal
  longitude : JSVal
  behavior : Option String
deriving Repr, DecidableEq

/-- One mock result row built by the part_001 `checkZone` variant. -/
structure ResultP1 where
  vessel_id : String
  in_mpa : Bool
  in_eez : Bool
  in_port : Bool
  illegal_fishing : Bool
  risk_level : String
deriving Repr, DecidableEq

/-- The response shape of the part_001 `checkZone` variant. -/
structure RespP1 where
  success : Bool
  error : Option String
  total_vessels : Nat
  violations : Nat
  mpa_violations : Nat
  eez_violations : Nat
  processing_time : String
  results : List ResultP1
deriving Repr, DecidableEq

/-- One mock result of the part_001 variant for the vessel at index `iv.1`.
`isViol = some b` on the success branch (index 0 uses the backend's
`is_violation` value `b`); `isViol = none` on the catch branch.  The four
Math.random() draws a row can consume are the components of `o iv.1`. -/
def mockResultP1 (isViol : Option Bool) (o : Nat → ℚ × ℚ × ℚ × ℚ)
    (iv : Nat × VesselP1) : ResultP1 :=
  let i := iv.1
  let v := iv.2
  let r := o i
  let inMPA := match isViol with
    | some b => if i = 0 then b else decide (r.1 > mkRat 7 10)
    | none => decide (r.1 > mkRat 7 10)
  let inEEZ := decide (r.2.1 > mkRat 5 10)
  let isFishing := (v.behavior == some "fishing") || decide (r.2.2.1 > mkRat 6 10)
  { vessel_id := jsOrStr v.vessel_id ("VESSEL" ++ pad3 (i + 1))
    in_mpa := inMPA
    in_eez := inEEZ
    in_port := decide (r.2.2.2 > mkRat 9 10)
    illegal_fishing := inMPA && isFishing
    risk_level := if inMPA && isFishing then "high"
                  else if inEEZ && isFishing then "medium" else "low" }

/-- Assemble a part_001 response from the mock rows: both the success and the
catch branch compute `violations`, `mpa_violations` and `eez_violations` from
the freshly built `mockResults` with exactly these filters. -/
def respFromMocksP1 (success : Bool) (err : Option String) (n : Nat)
    (mocks : List ResultP1) : RespP1 :=
  { success := success
    error := err
    total_vessels := n
    violations := (mocks.filter (fun r => r.illegal_fishing)).length
    mpa_violations := (mocks.filter (fun r => r.in_mpa && r.illegal_fishing)).length
    eez_violations := (mocks.filter
      (fun r => r.in_eez && r.illegal_fishing && !r.in_mpa)).length
    processing_time := "0.00s"
    results := mocks }

/-- part_001 `checkZone(data)`: sends only the first vessel's coordinates;
`api` is the opaque backend outcome carrying `result.is_violation`.  Every
thrown error lands in the catch branch, which still builds a full mock result
list over all vessels. -/
def checkZoneP1 (data : List VesselP1) (api : Except String Bool)
    (o : Nat → ℚ × ℚ × ℚ × ℚ) : RespP1 :=
  match data with
  | [] => respFromMocksP1 false (some "No vessel data to check") 0
      (([] : List VesselP1).enum.map (mockResultP1 none o))
  | firstVessel :: _ =>
    if !(isValidCoordinate firstVessel.latitude firstVessel.longitude) then
      respFromMocksP1 false (some "Invalid coordinates in vessel data") data.length
        (data.enum.map (mockResultP1 none o))
    else
      match api with
      | .error m => respFromMocksP1 false (some m) data.length
          (data.enum.map (mockResultP1 none o))
      | .ok isViol => respFromMocksP1 true none data.length
          (data.enum.map (mockResultP1 (some isViol) o))

/-! ## part_000: export serializer (convertToCSV) and the export guard -/

/-- A cell value in an exported record.  Numbers are modelled as integers
(the concrete records exercised here have integer coordinates); objects are
out of scope of the claims checked against this serializer. -/
inductive CellVal where
  | str (s : String)
  | int (n : Int)
  | bool (b : Bool)
deriving Repr, DecidableEq

/-- A record to export: ordered field list, as `Object.keys` insertion order. -/
abbrev CsvRec := List (String × CellVal)

/-- `String(obj[header])`: a missing key is `undefined` and stringifies to
`"undefined"`, exactly as in JS. -/
def cellString : Option CellVal → String
  | some (.str s) => s
  | some (.int n) => toString n
  | some (.bool b) => if b then "true" else "false"
  | none => "undefined"

/-- part_000 `convertToCSV(data)`: the empty collection yields the empty
string; otherwise the header row is the first record's keys joined by commas
(unquoted), and every data cell is stringified, quote-escaped and wrapped in
double quotes. -/
def convertToCSV (data : List CsvRec) : String :=
  match data with
  | [] => ""
  | first :: _ =>
    let headers := first.map (fun p => p.1)
    let rows := data.map (fun obj =>
      joinWith "," (headers.map (fun h => csvEscape (cellString (List.lookup h obj)))))
    joinWith "\n" (joinWith "," headers :: rows)

/-- ZoneViolation.tsx `handleExport` CSV branch: returns early (no download)
when the result list is empty, otherwise hands `convertToCSV results` to the
download helper. -/
def handleExportZV (results : List CsvRec) : Option String :=
  if results.length = 0 then none else some (convertToCSV results)

/-! ## ZoneViolation.tsx handleZoneCheck: the manual-CSV parser -/

/-- `Array.prototype.indexOf` on a string list (`-1` modelled as `none`). -/
def jsIndexOf (hs : List String) (h : String) : Option Nat :=
  match hs with
  | [] => none
  | x :: rest => if x = h then some 0 else (jsIndexOf rest h).map (· + 1)

/-- The split of the (trimmed) CSV text into lines. -/
def parseLines (csv : String) : List String := jsSplit (jsTrim csv) '\n'

/-- The header row: first line split on commas, each name trimmed and
lowercased. -/
def parseHeaders (csv : String) : List String :=
  (jsSplit ((parseLines csv).headD "") ',').map (fun h => lowerStr (jsTrim h))

/-- The value stored for one column: `latitude`/`longitude` columns are
`Number`-coerced (NaN when unparseable), every other column keeps the raw
string. -/
def coerceCell (h : String) (val : String) : JSVal :=
  if h = "latitude" ∨ h = "longitude" then
    match jsNumber val with
    | some q => .num q
    | none => .nan
  else .str val

/-- The row object built by `headers.forEach((header, index) => obj[header] = ...)`:
a left fold of JS object assignments, so a duplicated header name keeps its
first position but receives the **last** column's value. -/
def buildObj (pairs : List (String × String)) : List (String × JSVal) :=
  pairs.foldl (fun obj p => upsert obj p.1 (coerceCell p.1 p.2)) []

/-- One data line of `handleZoneCheck`: split on commas and trim; drop the row
(`return null`) when the column count mismatches, the coordinates at the
`latitude`/`longitude` header indices are NaN, or they are out of range;
otherwise build the row object. -/
def parseRow (headers : List String) (latIdx lonIdx : Nat) (line : String) :
    Option (List (String × JSVal)) :=
  if ((jsSplit line ',').map jsTrim).length ≠ headers.length then none
  else
    match jsNumber ((((jsSplit line ',').map jsTrim)).getD latIdx ""),
          jsNumber ((((jsSplit line ',').map jsTrim)).getD lonIdx "") with
    | some lat, some lon =>
      if lat < -90 ∨ lat > 90 ∨ lon < -180 ∨ lon > 180 then none
      else some (buildObj (headers.zip ((jsSplit line ',').map jsTrim)))
    | _, _ => none

/-- ZoneViolation.tsx `handleZoneCheck` parsing stage: fewer than two lines is
an error; missing `latitude`/`longitude` headers is an error; every data line
is parsed leniently by `parseRow` (bad rows dropped); zero surviving rows is
an error; otherwise the accepted row objects are returned. -/
def parseVesselCSV (csv : String) :
    Except String (List (List (String × JSVal))) :=
  if (parseLines csv).length < 2 then
    .error "CSV file is empty or contains only headers"
  else
    match jsIndexOf (parseHeaders csv) "latitude",
          jsIndexOf (parseHeaders csv) "longitude" with
    | some latIdx, some lonIdx =>
      if ((parseLines csv).tail.filterMap
          (parseRow (parseHeaders csv) latIdx lonIdx)).length = 0 then
        .error "No valid vessel data found in CSV"
      else
        .ok ((parseLines csv).tail.filterMap (parseRow (parseHeaders csv) latIdx lonIdx))
    | _, _ => .error "CSV must contain latitude and longitude columns"

/-! ## PredictionPage.tsx: processVesselData and the behavior classifier -/

/-- An AIS row as consumed by `processVesselData` (coordinate and speed
fields; an absent field is `undef`). -/
structure AISRow where
  MMSI : Option String
  VESSEL_NAME : Option String
  LAT : JSVal
  LATITUDE : JSVal
  LON : JSVal
  LONGITUDE : JSVal
  SPEED : JSVal
deriving Repr, DecidableEq

/-- JS nullish coalescing `a ?? b`. -/
def nullish (a b : JSVal) : JSVal :=
  match a with
  | .nullV => b
  | .undef => b
  | v => v

/-- PredictionPage.tsx `determineBehavior(data)`: thresholds on `Number(SPEED)`. -/
def determineBehavior (row : AISRow) : String :=
  match jsToNumber row.SPEED with
  | none => "unknown"
  | some s =>
    if s < mkRat 5 10 then "stopped"
    else if s < 3 then "fishing"
    else if s < 8 then "maneuvering"
    else "transit"

/-- A vessel surviving `processVesselData` normalization (the fields the
claims are about; telemetry passthrough fields are not modelled). -/
structure VesselM where
  vessel_id : Option String
  latitude : ℚ
  longitude : ℚ
  behavior : String
deriving Repr, DecidableEq

/-- The per-row transform of `processVesselData`: coordinates from
`LAT ?? LATITUDE` / `LON ?? LONGITUDE`, dropped (`null`) when NaN or out of
range, otherwise the standardized vessel object. -/
def processRow (row : AISRow) : Option VesselM :=
  match jsToNumber (nullish row.LAT row.LATITUDE),
        jsToNumber (nullish row.LON row.LONGITUDE) with
  | some latitude, some longitude =>
    if latitude < -90 ∨ latitude > 90 ∨ longitude < -180 ∨ longitude > 180 then none
    else some
      { vessel_id := match row.MMSI with
          | some m => some m
          | none => row.VESSEL_NAME
        latitude := latitude
        longitude := longitude
        behavior := determineBehavior row }
  | _, _ => none

/-- PredictionPage.tsx `processVesselData` transform/validate stage:
`data.map(...).filter(v => v !== null)`. -/
def processVesselData (rows : List AISRow) : List VesselM :=
  rows.filterMap processRow

/-! ## Decidability and concrete fixtures -/

/-- Decidable equality for `Except`, needed to evaluate concrete parser and
orchestrator outcomes by `decide`. -/
instance {e a : Type} [DecidableEq e] [DecidableEq a] : DecidableEq (Except e a) := fun
  | .ok x, .ok y =>
    match decEq x y with
    | isTrue h => isTrue (by rw [h])
    | isFalse h => isFalse (fun he => h (Except.ok.inj he))
  | .ok _, .error _ => isFalse (fun he => Except.noConfusion he)
  | .error _, .ok _ => isFalse (fun he => Except.noConfusion he)
  | .error x, .error y =>
    match decEq x y with
    | isTrue h => isTrue (by rw [h])
    | isFalse h => isFalse (fun he => h (Except.error.inj he))

/-- A one-row result list with integer coordinates, as exported by the page. -/
def sampleRec : CsvRec :=
  [("vessel_id", CellVal.str "VESSEL001"), ("latitude", CellVal.int 55),
   ("longitude", CellVal.int 12)]

/-- An underlying call that always fails with an ApiError of status 500. -/
def alwaysFail500 : Nat → Except ReqError Unit := fun _ => .error ⟨true, some 500⟩

/-- A fixed randomness oracle (all draws 0) for the three-draw mock generator. -/
def oZero3 : Nat → ℚ × ℚ × ℚ := fun _ => (0, 0, 0)

/-- Four vessels with valid coordinates. -/
def vessels4 : List VesselDataM :=
  [⟨some "V1", .num 1, .num 2⟩, ⟨some "V2", .num 3, .num 4⟩,
   ⟨some "V3", .num 5, .num 6⟩, ⟨some "V4", .num 7, .num 8⟩]

/-- A single authoritative backend result entry. -/
def rvOne : RawViolation :=
  { vessel_id := "V1"
    zone_type := some "mpa"
    timestamp := some "ts"
    location := some (.num 2, .num 1)
    severity := some "high"
    details := some "inside MPA" }

/-- A backend response carrying results for only one vessel. -/
def rawOne : RawResp :=
  { results? := some [rvOne]
    violations := some 1
    mpa_violations := some 1
    eez_violations := none
    processing_time := none }

/-- A backend result entry with severity `low` (not an illegal-fishing row). -/
def rvLow : RawViolation :=
  { vessel_id := "V1"
    zone_type := some "eez"
    timestamp := some "ts"
    location := some (.num 0, .num 0)
    severity := some "low"
    details := some "d" }

/-- A backend response whose `violations` tally (2) disagrees with its
results list (one entry, severity `low`). -/
def rawC2 : RawResp :=
  { results? := some [rvLow]
    violations := some 2
    mpa_violations := some 1
    eez_violations := some 1
    processing_time := none }

/-- A single valid vessel. -/
def vessels1 : List VesselDataM := [⟨some "V1", .num 0, .num 0⟩]

/-- The explicit value of `formatAPIResponse rawOne vessels4 "t"`. -/
def respOne : ZoneCheckResponseM :=
  { success := true
    total_vessels := 4
    violations := 1
    mpa_violations := 1
    eez_violations := 0
    processing_time := "0.00s"
    results := [{ vessel_id := "V1"
                  zone_type := "mpa"
                  timestamp := "ts"
                  location := (.num 2, .num 1)
                  severity := "high"
                  details := "inside MPA" }]
    error := none }

/-- The explicit value of `formatAPIResponse rawC2 vessels1 "t"`. -/
def respC2 : ZoneCheckResponseM :=
  { success := true
    total_vessels := 1
    violations := 2
    mpa_violations := 1
    eez_violations := 1
    processing_time := "0.00s"
    results := [{ vessel_id := "V1"
                  zone_type := "eez"
                  timestamp := "ts"
                  location := (.num 0, .num 0)
                  severity := "low"
                  details := "d" }]
    error := none }

/-- A row whose coordinates are numeric strings. -/
def vStrRow : VesselDataM := ⟨none, .str "45", .str "10"⟩

/-- A row whose coordinates are JS numbers. -/
def vNumRow : VesselDataM := ⟨none, .num 45, .num 10⟩

/-- The value stored under key `k` in a parsed row is a number inside the
closed interval `[lo, hi]`. -/
def numFieldInRangeB (row : List (String × JSVal)) (k : String) (lo hi : ℚ) : Bool :=
  match List.lookup k row with
  | some (.num a) => decide (lo ≤ a ∧ a ≤ hi)
  | _ => false

/-- The row parsed from the well-formed fixture CSV. -/
def row0 : List (String × JSVal) :=
  [("latitude", JSVal.num 10), ("longitude", JSVal.num 20)]

/-- The accepted rows of the well-formed fixture CSV. -/
def rows0 : List (List (String × JSVal)) := [row0]

/-- A well-formed AIS row (speed 1 knot classifies as `fishing`). -/
def aisRow1 : AISRow :=
  { MMSI := some "M1"
    VESSEL_NAME := none
    LAT := .num 10
    LATITUDE := .undef
    LON := .num 20
    LONGITUDE := .undef
    SPEED := .num 1 }

/-- The vessel `processVesselData` produces from `aisRow1`. -/
def vesselM1 : VesselM := ⟨some "M1", 10, 20, "fishing"⟩

/-! ## Association-list lemmas (JS object assignment / Map semantics) -/

theorem lookup_upsert_self {β : Type} (l : List (String × β)) (k : String) (v : β) :
    List.lookup k (upsert l k v) = some v := by
  induction l with
  | nil => simp [upsert, List.lookup]
  | cons e rest ih =>
    obtain ⟨k1, v1⟩ := e
    by_cases h : k1 = k
    · subst h
      simp [upsert, List.lookup]
    · have hb : (k == k1) = false := by
        simp [beq_eq_false_iff_ne]
        exact fun he => h he.symm
      simp [upsert, h, List.lookup, hb, ih]

theorem lookup_upsert_ne {β : Type} (l : List (String × β)) (k k2 : String) (v : β)
    (h : k2 ≠ k) : List.lookup k2 (upsert l k v) = List.lookup k2 l := by
  induction l with
  | nil => simp [upsert, List.lookup, beq_eq_false_iff_ne.mpr h]
  | cons e rest ih =>
    obtain ⟨k1, v1⟩ := e
    by_cases h1 : k1 = k
    · subst h1
      simp [upsert, List.lookup, beq_eq_false_iff_ne.mpr h]
    · simp [upsert, h1, List.lookup, ih]

theorem lookup_cacheDelete {α : Type} (c : List (String × α × Nat)) (k : String) :
    List.lookup k (cacheDelete c k) = none := by
  induction c with
  | nil => rfl
  | cons e rest ih
  => obtain ⟨k1, v1⟩ := e
     by_cases h : k1 = k
     · subst h
       simpa [cacheDelete, List.filter_cons] using ih
     · have hb : (k == k1) = false := by
         simp [beq_eq_false_iff_ne]
         exact fun he => h he.symm
       simpa [cacheDelete, List.filter_cons, h, List.lookup, hb] using ih

/-! ## Claim theorems: cache (C6), retry layer (C3, C4), export (C7, C8) -/

/-- C6: for every cache key and stored entry `(value, expiryInstant)`, a
`cacheGet` at a time strictly after the expiry instant is a miss and evicts
the entry (a subsequent lookup of the key finds nothing), while a read at or
before the expiry instant returns the stored value with the cache unchanged. -/
theorem cache_expiry_read {α : Type} (c : List (String × α × Nat)) (k : String)
    (d : α) (exp now : Nat) (h : List.lookup k c = some (d, exp)) :
    (exp < now → cacheGet c k now = (none, cacheDelete c k) ∧
      List.lookup k (cacheDelete c k) = none) ∧
    (now ≤ exp → cacheGet c k now = (some d, c)) := by
  constructor
  · intro hlt
    refine ⟨?_, lookup_cacheDelete c k⟩
    unfold cacheGet
    rw [h]
    simp [hlt]
  · intro hle
    unfold cacheGet
    rw [h]
    simp [Nat.not_lt.mpr hle]

/-- Witness for C6 at a concrete cache: the entry for `health-check` expires
at instant 10; a read at 11 misses and evicts, a read at 9 hits. -/
theorem cache_expiry_read_witness :
    (cacheGet [("health-check", "payload", 10)] "health-check" 11 =
        (none, cacheDelete [("health-check", "payload", 10)] "health-check") ∧
      List.lookup "health-check"
        (cacheDelete [("health-check", "payload", 10)] "health-check") = none) ∧
    cacheGet [("health-check", "payload", 10)] "health-check" 9 =
      (some "payload", [("health-check", "payload", 10)]) :=
  ⟨(cache_expiry_read [("health-check", "payload", 10)] "health-check"
      "payload" 10 11 (by decide)).1 (by decide),
   (cache_expiry_read [("health-check", "payload", 10)] "health-check"
      "payload" 10 9 (by decide)).2 (by decide)⟩

/-- C3: with the default MAX_RETRIES = 3 and INITIAL_RETRY_DELAY = 1000 and an
underlying call that always fails with a retry-eligible ApiError of status
500, `retryRequest` invokes the call exactly 4 times (1 initial + 3 retries),
sleeping 1000 ms, 2000 ms and 4000 ms before the three retries, each delay
being the previous one doubled and capped at MAX_RETRY_DELAY = 5000. -/
theorem retry_exhaustion_four_attempts :
    (retryRequest alwaysFail500 0 3 1000).attempts = 4 ∧
    (retryRequest alwaysFail500 0 3 1000).delays = [1000, 2000, 4000] ∧
    List.Chain' (fun a b => b = min (a * 2) 5000)
      (retryRequest alwaysFail500 0 3 1000).delays := by
  refine ⟨by decide, by decide, ?_⟩
  have h : (retryRequest alwaysFail500 0 3 1000).delays = [1000, 2000, 4000] := by decide
  rw [h]
  simp [List.chain'_cons]

/-- C4: when the underlying call's first invocation fails with an error whose
status is 400, 401 or 403, `retryRequest` performs exactly 1 attempt, sleeps
no backoff delay, and rethrows that very error. -/
theorem no_retry_on_client_errors {α : Type} (fn : Nat → Except ReqError α)
    (e : ReqError) (h0 : fn 0 = .error e)
    (hs : e.status = some 400 ∨ e.status = some 401 ∨ e.status = some 403) :
    retryRequest fn 0 3 1000 = ⟨.error e, 1, []⟩ := by
  have hnr : noRetryStatus e = true := by
    rcases hs with h | h | h <;> simp [noRetryStatus, h]
  unfold retryRequest
  rw [h0]
  cases hb : e.isApiError <;> simp [hnr, hb]

/-- Witness for C4: a simulated 401 ApiError results in exactly 1 attempt
with no delays. -/
theorem no_retry_on_client_errors_witness :
    retryRequest (fun _ => .error ⟨true, some 401⟩ : Nat → Except ReqError Unit)
      0 3 1000 = ⟨.error ⟨true, some 401⟩, 1, []⟩ :=
  no_retry_on_client_errors _ ⟨true, some 401⟩ rfl (Or.inr (Or.inl rfl))

/-- C7 (code bug): serializing a one-row result list with `convertToCSV` and
parsing the text back through the page's CSV parser does not preserve any row:
every data cell is wrapped in double quotes, the parser never strips quotes,
`Number('"55"')` is NaN, so every row is dropped and the parse fails — the
round-trip property does not hold at this input. -/
theorem csv_round_trip_fails_on_export :
    parseVesselCSV (convertToCSV [sampleRec]) =
      .error "No valid vessel data found in CSV" := by decide

/-- C8 counterexample: on the empty collection `convertToCSV` returns the
empty string — it produces (empty) output instead of raising an
EmptyExportError. -/
theorem convertToCSV_empty_returns_empty_string :
    convertToCSV ([] : List CsvRec) = "" := rfl

/-- C8 (amended): `convertToCSV` yields the empty string on an empty
collection and raises nothing; the export caller guards instead, declining to
export when the result list is empty and invoking the serializer otherwise. -/
theorem empty_export_amended :
    convertToCSV ([] : List CsvRec) = "" ∧
    handleExportZV ([] : List CsvRec) = none ∧
    (∀ rs : List CsvRec, 0 < rs.length → handleExportZV rs = some (convertToCSV rs)) := by
  refine ⟨rfl, rfl, ?_⟩
  intro rs h
  unfold handleExportZV
  rw [if_neg (by omega)]

/-- Witness for C8: the guard lets a nonempty result list through to the
serializer. -/
theorem empty_export_amended_witness :
    handleExportZV [sampleRec] = some (convertToCSV [sampleRec]) :=
  empty_export_amended.2.2 [sampleRec] (by decide)

/-! ## Claim theorems: zone-check orchestrator (C1, C2, C10) -/

/-- Inversion of the success path of `formatAPIResponse`: the formatted
response copies the backend tallies verbatim (with falsy defaults), reports
`total_vessels` from the input list, sets `success` and clears `error`, and
carries exactly one formatted entry per backend results entry. -/
theorem formatAPIResponse_ok {raw : RawResp} {vessels : List VesselDataM}
    {now : String} {resp : ZoneCheckResponseM}
    (h : formatAPIResponse raw vessels now = .ok resp) :
    resp.success = true ∧ resp.error = none ∧ resp.total_vessels = vessels.length ∧
    resp.violations = raw.violations.getD 0 ∧
    resp.results.length = (raw.results?.getD []).length := by
  unfold formatAPIResponse at h
  cases hr : raw.results? with
  | none =>
    rw [hr] at h
    exact Except.noConfusion h
  | some rs =>
    rw [hr] at h
    cases h
    simp [hr]

/-- C10: `checkZone` never rejects: for every input list, backend outcome,
clock and randomness oracle it returns a structurally complete response whose
`total_vessels` equals the input length; on the success branch `error` is
unset, and on every failure branch `success` is false with `error` set. -/
theorem checkZone_total_structural (vessels : List VesselDataM)
    (api : Except String RawResp) (now : String) (o : Nat → ℚ × ℚ × ℚ) :
    (checkZone vessels api now o).total_vessels = vessels.length ∧
    ((checkZone vessels api now o).success = true ∧
        (checkZone vessels api now o).error = none ∨
      (checkZone vessels api now o).success = false ∧
        ((checkZone vessels api now o).error).isSome = true) := by
  unfold checkZone
  by_cases h0 : vessels.length = 0
  · simp [h0, formatErrorResponse]
  · rw [if_neg h0]
    cases hF : findInvalidIdx vessels with
    | some i => simp [formatErrorResponse]
    | none =>
      cases api with
      | error m => simp [formatErrorResponse]
      | ok raw =>
        cases hA : formatAPIResponse raw vessels now with
        | error m => simp [hA, formatErrorResponse]
        | ok resp =>
          obtain ⟨hs, he, ht, _, _⟩ := formatAPIResponse_ok hA
          simp [hA, ht, hs, he]

/-- C1 counterexample: submitting 4 valid vessels while the backend returns
`results` for only 1 yields a reconciled results list of length 1, not 4 —
`formatAPIResponse` drops the unrepresented vessels instead of synthesizing
marked entries for them. -/
theorem checkZone_drops_unrepresented_vessels :
    (checkZone vessels4 (.ok rawOne) "t" oZero3).results.length = 1 ∧
    vessels4.length = 4 := by decide

/-- C1 (amended): on the frontend success path the reconciled results list
has the backend's cardinality (missing vessels are dropped, nothing is marked
as inferred), while the part_001 `checkZone` variant always returns exactly
one result entry per input vessel (on both its success and catch branches),
synthesizing the non-authoritative entries from random draws. -/
theorem reconciliation_cardinality_amended :
    (∀ (raw : RawResp) (vessels : List VesselDataM) (now : String)
        (resp : ZoneCheckResponseM),
        formatAPIResponse raw vessels now = .ok resp →
        resp.results.length = (raw.results?.getD []).length) ∧
    (∀ (data : List VesselP1) (api : Except String Bool) (o : Nat → ℚ × ℚ × ℚ × ℚ),
        (checkZoneP1 data api o).results.length = data.length) := by
  constructor
  · intro raw vessels now resp h
    exact (formatAPIResponse_ok h).2.2.2.2
  · intro data api o
    unfold checkZoneP1
    cases data with
    | nil => rfl
    | cons v rest =>
      cases hv : isValidCoordinate v.latitude v.longitude with
      | false => simp [respFromMocksP1, hv]
      | true =>
        cases api with
        | error m => simp [respFromMocksP1, hv]
        | ok b => simp [respFromMocksP1, hv]

/-- Witness for C1 (amended) at the 4-vessels/1-result fixture. -/
theorem reconciliation_cardinality_amended_witness :
    respOne.results.length = (rawOne.results?.getD []).length :=
  reconciliation_cardinality_amended.1 rawOne vessels4 "t" respOne (by decide)

/-- C2 counterexample: with a backend response whose `violations` field is 2
but whose single results entry has severity `low`, the zone-check result
(after the page's local mapping, which derives `illegal_fishing` from
severity) reports `violations = 2` while its results list contains 0 entries
flagged `illegal_fishing` — the tally is taken verbatim, not recomputed. -/
theorem violations_not_recomputed_counterexample :
    (mapApiResponseToLocalFormat (checkZone vessels1 (.ok rawC2) "t" oZero3)).violations
      = 2 ∧
    ((mapApiResponseToLocalFormat (checkZone vessels1 (.ok rawC2) "t" oZero3)).results.filter
      (fun d => d.illegal_fishing)).length = 0 := by decide

/-- C2 (amended): in checkZone.ts, `formatAPIResponse` copies the backend
`violations` tally verbatim (defaulting to 0) and `formatErrorResponse` sets
`violations` to the number of input vessels — neither recomputes it from the
results; the part_001 `checkZone` variant does recompute
`violations = count(results[].illegal_fishing)` on both branches. -/
theorem violations_tally_amended :
    (∀ (raw : RawResp) (vessels : List VesselDataM) (now : String)
        (resp : ZoneCheckResponseM),
        formatAPIResponse raw vessels now = .ok resp →
        resp.violations = raw.violations.getD 0) ∧
    (∀ (vessels : List VesselDataM) (msg now : String) (o : Nat → ℚ × ℚ × ℚ),
        (formatErrorResponse vessels msg now o).violations = vessels.length) ∧
    (∀ (data : List VesselP1) (api : Except String Bool) (o : Nat → ℚ × ℚ × ℚ × ℚ),
        (checkZoneP1 data api o).violations =
          ((checkZoneP1 data api o).results.filter (fun r => r.illegal_fishing)).length) := by
  refine ⟨?_, ?_, ?_⟩
  · intro raw vessels now resp h
    exact (formatAPIResponse_ok h).2.2.2.1
  · intro vessels msg now o
    simp [formatErrorResponse]
  · intro data api o
    unfold checkZoneP1
    cases data with
    | nil => rfl
    | cons v rest =>
      cases hv : isValidCoordinate v.latitude v.longitude with
      | false => simp [respFromMocksP1, hv]
      | true =>
        cases api with
        | error m => simp [respFromMocksP1, hv]
        | ok b => simp [respFromMocksP1, hv]

/-- Witness for C2 (amended) at the verbatim-tally fixture. -/
theorem violations_tally_amended_witness :
    respC2.violations = rawC2.violations.getD 0 :=
  violations_tally_amended.1 rawC2 vessels1 "t" respC2 (by decide)

/-! ## Claim theorems: fetch validation vs. the 4.2 predicate (C5) -/

/-- C5 counterexample: a row with numeric-string coordinates is accepted by
`isValidCoordinate` (which `Number()`-coerces) but rejected by the fetch
path's own validator (which requires `typeof === 'number'`) — the two
acceptance decisions do not coincide. -/
theorem fetch_validator_differs_from_isValidCoordinate :
    validateVesselRow vStrRow = false ∧
    isValidCoordinate vStrRow.latitude vStrRow.longitude = true := by decide

/-- C5 (amended): the fetch path re-derives its own check instead of calling
`isValidCoordinate`; acceptance by the fetch validator implies acceptance by
`isValidCoordinate`, and the two coincide on rows whose coordinates are
already JS numbers — but not in general; and any row failing the fetch
validator invalidates the whole fetch with the INVALID_DATA_FORMAT error. -/
theorem fetch_validation_amended :
    (∀ v : VesselDataM, validateVesselRow v = true →
        isValidCoordinate v.latitude v.longitude = true) ∧
    (∀ (v : VesselDataM) (a b : ℚ), v.latitude = .num a → v.longitude = .num b →
        validateVesselRow v = isValidCoordinate v.latitude v.longitude) ∧
    (∀ data : List VesselDataM, validateVesselData data = false →
        fetchCSVValidate data = .error "INVALID_DATA_FORMAT") := by
  refine ⟨?_, ?_, ?_⟩
  · intro v h
    obtain ⟨vid, lat, lng⟩ := v
    cases lat <;> cases lng <;>
      simp_all [validateVesselRow, jsTypeofNumber, jsNumGE, jsNumLE,
        isValidCoordinate, jsToNumber, decide_eq_true_eq]
  · intro v a b hla hlb
    obtain ⟨vid, lat, lng⟩ := v
    simp only at hla hlb
    subst hla
    subst hlb
    simp only [validateVesselRow, isValidCoordinate, jsToNumber, jsTypeofNumber,
      jsNumGE, jsNumLE]
    by_cases h1 : (-90 : ℚ) ≤ a <;> by_cases h2 : a ≤ 90 <;>
      by_cases h3 : (-180 : ℚ) ≤ b <;> by_cases h4 : b ≤ 180 <;>
        simp [h1, h2, h3, h4]
  · intro data h
    unfold fetchCSVValidate
    simp [h]

/-- Witness for C5 (amended): the validators agree on a numeric row, and one
failing row voids the whole fetch. -/
theorem fetch_validation_amended_witness :
    validateVesselRow vNumRow = isValidCoordinate vNumRow.latitude vNumRow.longitude ∧
    fetchCSVValidate [vStrRow] = .error "INVALID_DATA_FORMAT" :=
  ⟨fetch_validation_amended.2.1 vNumRow 45 10 rfl rfl,
   fetch_validation_amended.2.2 [vStrRow] (by decide)⟩

/-! ## Lemmas for the manual-CSV parser (C9) -/

theorem jsIndexOf_split (L1 : List String) (a : String) (L2 : List String)
    (h : a ∉ L1) : jsIndexOf (L1 ++ a :: L2) a = some L1.length := by
  induction L1 with
  | nil => simp [jsIndexOf]
  | cons x t ih =>
    have hx : ¬ x = a := fun he => h (by rw [he]; exact List.mem_cons_self a t)
    have ht : a ∉ t := fun hm => h (List.mem_cons_of_mem x hm)
    simp [jsIndexOf, hx, ih ht]

theorem zip_split (L1 : List String) (a : String) (L2 : List String)
    (vs : List String) (h : vs.length = (L1 ++ a :: L2).length) :
    ∃ w1 w w2, vs = w1 ++ w :: w2 ∧ w1.length = L1.length ∧
      (L1 ++ a :: L2).zip vs = L1.zip w1 ++ (a, w) :: L2.zip w2 ∧
      vs.getD L1.length "" = w := by
  induction L1 generalizing vs with
  | nil =>
    cases vs with
    | nil => simp at h
    | cons w w2 => exact ⟨[], w, w2, rfl, rfl, by simp, by simp⟩
  | cons x t ih =>
    cases vs with
    | nil => simp at h
    | cons v vs2 =>
      have h2 : vs2.length = (t ++ a :: L2).length := by simpa using h
      obtain ⟨w1, w, w2, hv, hl, hz, hg⟩ := ih vs2 h2
      refine ⟨v :: w1, w, w2, by simp [hv], by simp [hl], ?_, ?_⟩
      · simp [hz]
      · simpa using hg

theorem lookup_buildAux_notmem (pairs : List (String × String))
    (acc : List (String × JSVal)) (k : String)
    (h : ∀ p ∈ pairs, p.1 ≠ k) :
    List.lookup k
        (pairs.foldl (fun obj p => upsert obj p.1 (coerceCell p.1 p.2)) acc) =
      List.lookup k acc := by
  induction pairs generalizing acc with
  | nil => rfl
  | cons p rest ih =>
    rw [List.foldl_cons]
    rw [ih _ (fun q hq => h q (List.mem_cons_of_mem p hq))]
    exact lookup_upsert_ne acc p.1 k _ (Ne.symm (h p (List.mem_cons_self p rest)))

theorem lookup_buildObj_last (Lp : List (String × String)) (k : String) (v : String)
    (Rp : List (String × String)) (h2 : ∀ p ∈ Rp, p.1 ≠ k) :
    List.lookup k (buildObj (Lp ++ (k, v) :: Rp)) = some (coerceCell k v) := by
  unfold buildObj
  rw [List.foldl_append, List.foldl_cons]
  rw [lookup_buildAux_notmem Rp _ k h2]
  exact lookup_upsert_self _ k _

/-- Inversion of an accepted `parseRow`: column counts match, both coordinate
cells parse to numbers, the numbers are in range, and the row is the built
object. -/
theorem parseRow_some {headers : List String} {latIdx lonIdx : Nat} {line : String}
    {row : List (String × JSVal)}
    (h : parseRow headers latIdx lonIdx line = some row) :
    ∃ lat lon,
      ((jsSplit line ',').map jsTrim).length = headers.length ∧
      jsNumber (((jsSplit line ',').map jsTrim).getD latIdx "") = some lat ∧
      jsNumber (((jsSplit line ',').map jsTrim).getD lonIdx "") = some lon ∧
      -90 ≤ lat ∧ lat ≤ 90 ∧ -180 ≤ lon ∧ lon ≤ 180 ∧
      row = buildObj (headers.zip ((jsSplit line ',').map jsTrim)) := by
  unfold parseRow at h
  by_cases hlen : ((jsSplit line ',').map jsTrim).length ≠ headers.length
  · rw [if_pos hlen] at h
    exact absurd h (by simp)
  · rw [if_neg hlen] at h
    push_neg at hlen
    cases ha : jsNumber (((jsSplit line ',').map jsTrim).getD latIdx "") with
    | none =>
      rw [ha] at h
      exact absurd h (by simp)
    | some lat =>
      cases hb : jsNumber (((jsSplit line ',').map jsTrim).getD lonIdx "") with
      | none =>
        rw [ha, hb] at h
        exact absurd h (by simp)
      | some lon =>
        rw [ha, hb] at h
        by_cases hr : lat < -90 ∨ lat > 90 ∨ lon < -180 ∨ lon > 180
        · simp [hr] at h
        · simp [hr] at h
          push_neg at hr
          obtain ⟨h1, h2, h3, h4⟩ := hr
          exact ⟨lat, lon, hlen, rfl, rfl, h1, h2, h3, h4, h.symm⟩

/-- Inversion of a successful `parseVesselCSV`: both header indices were
found and the accepted rows are the lenient `filterMap` over the data lines. -/
theorem parseVesselCSV_ok {csv : String} {rows : List (List (String × JSVal))}
    (h : parseVesselCSV csv = .ok rows) :
    ∃ latIdx lonIdx,
      jsIndexOf (parseHeaders csv) "latitude" = some latIdx ∧
      jsIndexOf (parseHeaders csv) "longitude" = some lonIdx ∧
      rows = (parseLines csv).tail.filterMap
        (parseRow (parseHeaders csv) latIdx lonIdx) := by
  unfold parseVesselCSV at h
  by_cases h2 : (parseLines csv).length < 2
  · rw [if_pos h2] at h
    exact absurd h (by simp)
  · rw [if_neg h2] at h
    cases hla : jsIndexOf (parseHeaders csv) "latitude" with
    | none =>
      rw [hla] at h
      exact absurd h (by simp)
    | some latIdx =>
      cases hlo : jsIndexOf (parseHeaders csv) "longitude" with
      | none =>
        rw [hla, hlo] at h
        exact absurd h (by simp)
      | some lonIdx =>
        rw [hla, hlo] at h
        by_cases hz : ((parseLines csv).tail.filterMap
            (parseRow (parseHeaders csv) latIdx lonIdx)).length = 0
        · simp [hz] at h
        · simp [hz] at h
          exact ⟨latIdx, lonIdx, rfl, rfl, h.symm⟩

/-- C9 counterexample: a CSV whose header row repeats `latitude` passes range
validation on the first latitude column, but the row object keeps the last
column's value (JS object assignment overwrites), so the accepted row stores
latitude 999 — outside [-90, 90]. -/
theorem duplicate_header_bypasses_range_check :
    parseVesselCSV "latitude,longitude,latitude\n10,20,999" =
      .ok [[("latitude", JSVal.num 999), ("longitude", JSVal.num 20)]] ∧
    numFieldInRangeB [("latitude", JSVal.num 999), ("longitude", JSVal.num 20)]
      "latitude" (-90) 90 = false := by decide

/-- C9 (amended): every vessel surviving `processVesselData` has latitude in
[-90, 90] and longitude in [-180, 180] (invalid rows are dropped, never
retained); every row accepted by the manual-CSV parser satisfies the same
bounds **provided** the header row contains exactly one `latitude` and one
`longitude` column — with a duplicated coordinate header the last column's
unvalidated value overwrites the validated one. -/
theorem survivors_coordinate_ranges_amended :
    (∀ (rows : List AISRow) (v : VesselM), v ∈ processVesselData rows →
        -90 ≤ v.latitude ∧ v.latitude ≤ 90 ∧
        -180 ≤ v.longitude ∧ v.longitude ≤ 180) ∧
    (∀ (csv : String) (rows : List (List (String × JSVal)))
        (row : List (String × JSVal)) (L1 L2 M1 M2 : List String),
        parseVesselCSV csv = .ok rows → row ∈ rows →
        parseHeaders csv = L1 ++ "latitude" :: L2 →
        "latitude" ∉ L1 → "latitude" ∉ L2 →
        parseHeaders csv = M1 ++ "longitude" :: M2 →
        "longitude" ∉ M1 → "longitude" ∉ M2 →
        numFieldInRangeB row "latitude" (-90) 90 = true ∧
        numFieldInRangeB row "longitude" (-180) 180 = true) := by
  constructor
  · intro rows v hv
    unfold processVesselData at hv
    obtain ⟨r, hr, hpr⟩ := List.mem_filterMap.mp hv
    unfold processRow at hpr
    cases hla : jsToNumber (nullish r.LAT r.LATITUDE) with
    | none =>
      rw [hla] at hpr
      simp at hpr
    | some lat =>
      cases hlo : jsToNumber (nullish r.LON r.LONGITUDE) with
      | none =>
        rw [hla, hlo] at hpr
        simp at hpr
      | some lon =>
        rw [hla, hlo] at hpr
        by_cases hrange : lat < -90 ∨ lat > 90 ∨ lon < -180 ∨ lon > 180
        · simp [hrange] at hpr
        · simp [hrange] at hpr
          push_neg at hrange
          obtain ⟨h1, h2, h3, h4⟩ := hrange
          rw [← hpr]
          exact ⟨h1, h2, h3, h4⟩
  · intro csv rows row L1 L2 M1 M2 hok hmem hLs hL1 hL2 hMs hM1 hM2
    obtain ⟨latIdx, lonIdx, hla, hlo, hrows⟩ := parseVesselCSV_ok hok
    subst hrows
    obtain ⟨line, hline, hpr⟩ := List.mem_filterMap.mp hmem
    obtain ⟨lat, lon, hlen, hjn1, hjn2, b1, b2, b3, b4, hrow⟩ := parseRow_some hpr
    have hlatIdx : latIdx = L1.length := by
      have hsp := jsIndexOf_split L1 "latitude" L2 hL1
      rw [← hLs, hla] at hsp
      exact Option.some.inj hsp
    have hlonIdx : lonIdx = M1.length := by
      have hsp := jsIndexOf_split M1 "longitude" M2 hM1
      rw [← hMs, hlo] at hsp
      exact Option.some.inj hsp
    constructor
    · have hlen1 : ((jsSplit line ',').map jsTrim).length =
          (L1 ++ "latitude" :: L2).length := by
        rw [← hLs]
        exact hlen
      obtain ⟨w1, w, w2, hvs, hw1, hzip, hget⟩ := zip_split L1 "latitude" L2 _ hlen1
      have hjw : jsNumber w = some lat := by
        rw [← hget, ← hlatIdx]
        exact hjn1
      have hRp : ∀ p ∈ L2.zip w2, p.1 ≠ "latitude" := by
        intro p hp hpk
        obtain ⟨p1, p2⟩ := p
        exact hL2 (hpk ▸ (List.of_mem_zip hp).1)
      have hcc : coerceCell "latitude" w = JSVal.num lat := by
        unfold coerceCell
        rw [if_pos (Or.inl rfl), hjw]
      have hlook : List.lookup "latitude" row = some (JSVal.num lat) := by
        rw [hrow, hLs, hzip, lookup_buildObj_last (L1.zip w1) "latitude" w (L2.zip w2) hRp,
          hcc]
      unfold numFieldInRangeB
      rw [hlook]
      exact decide_eq_true ⟨b1, b2⟩
    · have hlen1 : ((jsSplit line ',').map jsTrim).length =
          (M1 ++ "longitude" :: M2).length := by
        rw [← hMs]
        exact hlen
      obtain ⟨w1, w, w2, hvs, hw1, hzip, hget⟩ := zip_split M1 "longitude" M2 _ hlen1
      have hjw : jsNumber w = some lon := by
        rw [← hget, ← hlonIdx]
        exact hjn2
      have hRp : ∀ p ∈ M2.zip w2, p.1 ≠ "longitude" := by
        intro p hp hpk
        obtain ⟨p1, p2⟩ := p
        exact hM2 (hpk ▸ (List.of_mem_zip hp).1)
      have hcc : coerceCell "longitude" w = JSVal.num lon := by
        unfold coerceCell
        rw [if_pos (Or.inr rfl), hjw]
      have hlook : List.lookup "longitude" row = some (JSVal.num lon) := by
        rw [hrow, hMs, hzip, lookup_buildObj_last (M1.zip w1) "longitude" w (M2.zip w2) hRp,
          hcc]
      unfold numFieldInRangeB
      rw [hlook]
      exact decide_eq_true ⟨b3, b4⟩

/-- Witness for C9 (amended): both conjuncts applied at concrete fixtures
with every hypothesis discharged by evaluation. -/
theorem survivors_coordinate_ranges_amended_witness :
    (-90 ≤ vesselM1.latitude ∧ vesselM1.latitude ≤ 90 ∧
      -180 ≤ vesselM1.longitude ∧ vesselM1.longitude ≤ 180) ∧
    numFieldInRangeB row0 "latitude" (-90) 90 = true ∧
    numFieldInRangeB row0 "longitude" (-180) 180 = true :=
  ⟨survivors_coordinate_ranges_amended.1 [aisRow1] vesselM1 (by decide),
   survivors_coordinate_ranges_amended.2 "latitude,longitude\n10,20" rows0 row0
     [] ["longitude"] ["latitude"] [] (by decide) (by decide) (by decide)
     (by decide) (by decide) (by decide) (by decide) (by decide)⟩
